import Mathlib

/-
  Shallow embedding of src/scripts/auto_login.py (ClawCloud auto-login).

  Conventions of the embedding:
  * Python's substring test `pat in s` is `strContains s pat`; `s.lower()` is
    `lowerStr s` (the URLs involved are ASCII, so ASCII lowercasing is exact).
  * The browser page is external, mutable state that the script only reads
    through `page.url`.  Each polling loop is therefore embedded as a function
    over the finite trace of URL observations the loop makes before its
    deadline (one entry per iteration of the Python `while`/`for` loop).
  * Telegram's getUpdates API is external.  The inbox state at call start is a
    list of updates (`startInbox`), and the successive long-poll responses are
    a list of batches.  The guarantee that the server only returns updates
    with `update_id` at least the requested offset is the inductive predicate
    `BatchesValid`; the script's own offset bookkeeping is embedded exactly.
  * Side effects that the claims talk about (clicking the provider button,
    filling credentials, 2FA handling, keepalive, secret-store update,
    Telegram messages, exit status) are recorded as an event list `List Ev`;
    HTTP plumbing, logging text and screenshots are abstracted away.
-/

namespace ClawCloud

/-- Does the character list start with `p`?  Helper for Python's `in`. -/
def startsWithList : List Char → List Char → Bool
  | [], _ => true
  | _ :: _, [] => false
  | p :: ps, c :: cs => p == c && startsWithList ps cs

/-- Does the character list contain `pat` as a contiguous sublist? -/
def hasSubstrList (pat : List Char) : List Char → Bool
  | [] => pat.isEmpty
  | c :: cs => startsWithList pat (c :: cs) || hasSubstrList pat cs

/-- Python's `pat in s` on strings. -/
def strContains (s pat : String) : Bool :=
  hasSubstrList pat.data s.data

/-- Python's `s.lower()` (ASCII; all URLs compared by the script are ASCII). -/
def lowerStr (s : String) : String :=
  String.mk (s.data.map Char.toLower)

/-- Python's `s.strip()`: drop whitespace from both ends. -/
def pyStrip (s : String) : String :=
  String.mk (((s.data.dropWhile Char.isWhitespace).reverse.dropWhile Char.isWhitespace).reverse)

/-! ### Telegram (class `Telegram`, lines 26-119) -/

/-- One Telegram update as the script reads it: `update_id`, the stringified
chat id `str(chat.get("id"))`, and the raw message text `msg.get("text") or ""`. -/
structure TgUpdate where
  update_id : Nat
  chatId : String
  text : String
deriving DecidableEq, Repr

/-- Regex `^/code\s+(\d{6,8})$` step: require at least one whitespace
character, then drop the whole whitespace run (`\s` and `\d` are disjoint, so
the greedy match is exactly this). -/
def dropWs1 : List Char → Option (List Char)
  | [] => none
  | c :: cs => if c.isWhitespace then some (cs.dropWhile Char.isWhitespace) else none

/-- Model of `pattern.match(text)` for `pattern = re.compile(r"^/code\s+(\d{6,8})$")`
(line 88), returning group 1 on a match. -/
def codeMatch (s : String) : Option String :=
  if s.data.take 5 = "/code".data then
    match dropWs1 (s.data.drop 5) with
    | some rest =>
      if rest.all Char.isDigit && decide (6 ≤ rest.length) && decide (rest.length ≤ 8) then
        some (String.mk rest)
      else none
    | none => none
  else none

/-- Embedding of `Telegram.flush_updates` (lines 60-75): the offset one past the last
pending update, or 0 when the inbox is empty (`result[-1]["update_id"] + 1`). -/
def flush_updates : List TgUpdate → Nat
  | [] => 0
  | [u] => u.update_id + 1
  | _ :: u :: rest => flush_updates (u :: rest)

/-- The inner `for upd in data["result"]` of `wait_code` (lines 102-112): skip
updates whose chat id differs from the configured one, return the first
pattern match, together with the update it came from. -/
def scanBatch (chatId : String) : List TgUpdate → Option (TgUpdate × String)
  | [] => none
  | u :: rest =>
    if u.chatId == chatId then
      match codeMatch (pyStrip u.text) with
      | some c => some (u, c)
      | none => scanBatch chatId rest
    else scanBatch chatId rest

/-- The offset the script holds after consuming a whole batch without
returning: `update_id + 1` of the last element, or unchanged when empty. -/
def batchEnd (offset : Nat) : List TgUpdate → Nat
  | [] => offset
  | u :: rest => batchEnd (u.update_id + 1) rest

/-- The polling loop of `wait_code` (lines 90-117).  Each list element is the
response of one `getUpdates` request; a failed request behaves like an empty
batch.  The deadline bounds the number of polls, hence the list is finite. -/
def wait_code_loop (chatId : String) : Nat → List (List TgUpdate) → Option (TgUpdate × String)
  | _, [] => none
  | o, b :: bs =>
    match scanBatch chatId b with
    | some r => some r
    | none => wait_code_loop chatId (batchEnd o b) bs

/-- Embedding of `Telegram.wait_code` (lines 77-119), instrumented to also return the
update the code came from.  `ok` is `self.ok` (bot token and chat id set). -/
def wait_code_aux (ok : Bool) (chatId : String) (startInbox : List TgUpdate)
    (batches : List (List TgUpdate)) : Option (TgUpdate × String) :=
  if ok then wait_code_loop chatId (flush_updates startInbox) batches else none

/-- Embedding of `Telegram.wait_code` proper: just the returned code string. -/
def wait_code (ok : Bool) (chatId : String) (startInbox : List TgUpdate)
    (batches : List (List TgUpdate)) : Option String :=
  (wait_code_aux ok chatId startInbox batches).map (fun r => r.2)

/-- Telegram server guarantee: each long-poll answered with offset `o` only
contains updates with `update_id ≥ o`, where the offset evolves exactly as the
script resends it (`batchEnd`). -/
inductive BatchesValid : Nat → List (List TgUpdate) → Prop
  | nil (o : Nat) : BatchesValid o []
  | cons (o : Nat) (b : List TgUpdate) (bs : List (List TgUpdate))
      (hb : ∀ u ∈ b, o ≤ u.update_id)
      (hrest : BatchesValid (batchEnd o b) bs) : BatchesValid o (b :: bs)

/-! ### Device verification (`AutoLogin.wait_device`, lines 282-376) -/

/-- URL is on the device-verification path (lines 305, 326, 369). -/
def deviceMarker (u : String) : Bool :=
  strContains u "verified-device" || strContains u "device-verification"

/-- One iteration of the `wait_device` polling loop: the URL read at loop
entry, whether `find_and_click` hit a continue control, and the URL re-read
after that click settled. -/
structure DevObs where
  url : String
  clicked : Bool
  urlAfterClick : String
deriving DecidableEq, Repr

/-- Embedding of `AutoLogin.wait_device`: the in-deadline iterations are `obs`; `finalUrl`
is `page.url` re-read after the timeout's best-effort click sweep (line 369).
Returns the step result together with the URL current at the return point. -/
def wait_device (obs : List DevObs) (finalUrl : String) : Bool × String :=
  match obs with
  | [] => if !(deviceMarker finalUrl) then (true, finalUrl) else (false, finalUrl)
  | o :: rest =>
    if !(deviceMarker o.url) then (true, o.url)
    else if o.clicked && !(deviceMarker o.urlAfterClick) then (true, o.urlAfterClick)
    else wait_device rest finalUrl

/-! ### Mobile 2FA (`AutoLogin._handle_mobile_2fa`, lines 402-454) -/

/-- The polling loop of `_handle_mobile_2fa` (lines 420-450), one URL
observation per second, at most `TWO_FACTOR_WAIT = 120` entries; exhausting
the list is the deadline (timeout, line 452).  The checks are in source
order: first the two-factor-path check (line 426, success), then the
login-page check (line 432, failure); reloads and screenshots do not affect
the result. -/
def mobile2faLoop : List String → Bool
  | [] => false
  | url :: rest =>
    if !(strContains url "github.com/sessions/two-factor/") then true
    else if strContains url "github.com/login" then false
    else mobile2faLoop rest

/-! ### Observable events of the orchestrator -/

/-- Abstract effects the run performs, in program order. -/
inductive Ev where
  | loadCookie : Ev
  | clickProvider : Ev
  | fillCredentials : Ev
  | handle2fa : Ev
  | keepalive : Ev
  | extractToken : Ev
  | secretUpdate (value : String) : Ev
  | sendRaw (value : String) : Ev
  | sendText (msg : String) : Ev
  | contactOperator : Ev
  | submitCode (code : String) : Ev
  | warnNoCookie : Ev
  | notifyOk : Ev
  | notifyFail (msg : String) : Ev
deriving DecidableEq, Repr

/-- Embedding of `AutoLogin.save_cookie` (lines 263-280) as its event trace.  `none` models
Python `None`; `if not value: return` is the first statement.  On a truthy
value the secret update is invoked once; on success a fixed text (without the
token) is sent, on failure the message interpolating the raw token is sent
(`sendRaw`). -/
def save_cookie (updateOk : Bool) (value : Option String) : List Ev :=
  match value with
  | none => []
  | some v =>
    if v = "" then []
    else if updateOk then [Ev.secretUpdate v, Ev.sendText "GH_SESSION updated"]
    else [Ev.secretUpdate v, Ev.sendRaw v]

/-! ### 2FA dispatch (`AutoLogin.detect_and_handle_2fa`, lines 378-400) -/

/-- External observations the two 2FA handlers can consume. -/
structure TwoFaWorld where
  mobileUrls : List String
  tgOk : Bool
  chatId : String
  startInbox : List TgUpdate
  batches : List (List TgUpdate)
  otpFieldVisible : Bool
  submitUrl : String

/-- Embedding of `AutoLogin._handle_mobile_2fa`: prompts the operator (Telegram message and
screenshot, lines 408-414), then runs the polling loop. -/
def handle_mobile_2fa (w : TwoFaWorld) : Bool × List Ev :=
  (mobile2faLoop w.mobileUrls, [Ev.contactOperator])

/-- Embedding of `AutoLogin._handle_code_2fa` (lines 456-542): prompts the operator, blocks
on `wait_code`; on timeout fails without submitting; on a code, fills the OTP
field if one is visible, submits, and succeeds iff the URL left the
two-factor path (line 529). -/
def handle_code_2fa (w : TwoFaWorld) : Bool × List Ev :=
  match wait_code w.tgOk w.chatId w.startInbox w.batches with
  | none => (false, [Ev.contactOperator])
  | some c =>
    if w.otpFieldVisible then
      (!(strContains w.submitUrl "github.com/sessions/two-factor/"),
        [Ev.contactOperator, Ev.submitCode c])
    else (false, [Ev.contactOperator])

/-- Embedding of `AutoLogin.detect_and_handle_2fa` (lines 378-400): skip when the URL has
no two-factor marker (line 387), else dispatch on `two-factor/mobile`. -/
def detect_and_handle_2fa (w : TwoFaWorld) (url : String) : Bool × List Ev :=
  if !(strContains url "two-factor") then (true, [])
  else if strContains url "two-factor/mobile" then handle_mobile_2fa w
  else handle_code_2fa w

/-! ### OAuth loop (`AutoLogin.complete_oauth_flow`, lines 634-719) -/

/-- Success test of the OAuth loop and of the verification step (lines 643,
885): on the ClawCloud domain and not on the sign-in page. -/
def clawAuthed (url : String) : Bool :=
  strContains url "claw.cloud" && !(strContains (lowerStr url) "signin")

/-- The `for attempt in range(30)` loop: `urls i` is `page.url` at iteration
`i`.  Only the success branch returns from inside the loop; all other
branches (authorize click, goto, provider re-click) continue. -/
def oauthLoop (urls : Nat → String) : Nat → Nat → Bool
  | _, 0 => false
  | attempt, fuel + 1 =>
    if clawAuthed (urls attempt) then true else oauthLoop urls (attempt + 1) fuel

/-- Embedding of `AutoLogin.complete_oauth_flow`: at most `max_attempts = 30` iterations
(line 638), `False` after the budget (line 719). -/
def complete_oauth_flow (urls : Nat → String) : Bool :=
  oauthLoop urls 0 30

/-! ### The run (`AutoLogin.run`, lines 776-914) -/

/-- External observations consumed by one run: credential presence, the prior
session token, `page.url` at the decision points, the abstracted results of
the provider click, of `login_github`, of `get_session`, and of
`SecretUpdater.update`. -/
structure World where
  hasUser : Bool
  hasPass : Bool
  ghSession : String
  landingUrl : String
  ghButtonFound : Bool
  postClickUrl : String
  loginOk : Bool
  oauthUrls : Nat → String
  finalUrl : String
  cookie : Option String
  updateOk : Bool

/-- Cookie preload (lines 800-808): only when `GH_SESSION` is non-empty. -/
def preEvents (w : World) : List Ev :=
  if w.ghSession = "" then [] else [Ev.loadCookie]

/-- Step 3 guard (line 868): `login_github` runs only when the post-click URL
is on the GitHub login/session path. -/
def needLogin (w : World) : Bool :=
  strContains w.postClickUrl "github.com/login" || strContains w.postClickUrl "github.com/session"

/-- Events of an invoked `login_github` (lines 544-632): credential entry then
2FA handling. -/
def loginEvents (w : World) : List Ev :=
  if needLogin w then [Ev.fillCredentials, Ev.handle2fa] else []

/-- Step 7 (lines 893-899): a truthy cookie is saved, otherwise only a
warning is logged. -/
def tokenEvents (w : World) : List Ev :=
  match w.cookie with
  | none => [Ev.warnNoCookie]
  | some v => if v = "" then [Ev.warnNoCookie] else save_cookie w.updateOk (some v)

/-- Embedding of `AutoLogin.run` (lines 776-914) as exit status and event trace, branch for
branch: missing credentials (line 785), existing-session short cut (line 821,
note: a missing cookie is not even warned about there, lines 825-827),
provider click failure (line 849), GitHub login failure (line 869), OAuth
timeout (line 876), verification (line 885), then keepalive, token
extraction, cookie save and success report (exit status 0). -/
def run (w : World) : Nat × List Ev :=
  if !(w.hasUser && w.hasPass) then (1, [Ev.notifyFail "凭据未配置"])
  else if !(strContains (lowerStr w.landingUrl) "signin") then
    (0, preEvents w ++ [Ev.keepalive, Ev.extractToken] ++
        save_cookie w.updateOk w.cookie ++ [Ev.notifyOk])
  else if !w.ghButtonFound then
    (1, preEvents w ++ [Ev.clickProvider, Ev.notifyFail "找不到 GitHub 按钮"])
  else if needLogin w && !w.loginOk then
    (1, preEvents w ++ [Ev.clickProvider, Ev.fillCredentials, Ev.handle2fa,
        Ev.notifyFail "GitHub 登录失败"])
  else if !(complete_oauth_flow w.oauthUrls) then
    (1, preEvents w ++ [Ev.clickProvider] ++ loginEvents w ++ [Ev.notifyFail "OAuth 流程失败"])
  else if !(clawAuthed w.finalUrl) then
    (1, preEvents w ++ [Ev.clickProvider] ++ loginEvents w ++ [Ev.notifyFail "验证失败"])
  else
    (0, preEvents w ++ [Ev.clickProvider] ++ loginEvents w ++
        [Ev.keepalive, Ev.extractToken] ++ tokenEvents w ++ [Ev.notifyOk])

/-! ### Helper lemmas: Telegram -/

/-- A successful regex match yields a 6-8 character all-digit string. -/
lemma codeMatch_spec {s : String} {c : String} (h : codeMatch s = some c) :
    6 ≤ c.length ∧ c.length ≤ 8 ∧ c.data.all Char.isDigit = true := by
  unfold codeMatch at h
  split at h
  · cases hws : dropWs1 (s.data.drop 5) with
    | none => rw [hws] at h; cases h
    | some rest =>
      rw [hws] at h
      dsimp only at h
      by_cases hcond :
          (rest.all Char.isDigit && decide (6 ≤ rest.length) && decide (rest.length ≤ 8)) = true
      · rw [if_pos hcond] at h
        cases h
        simp only [Bool.and_eq_true, decide_eq_true_eq] at hcond
        exact ⟨by simpa [String.length] using hcond.1.2,
          by simpa [String.length] using hcond.2, hcond.1.1⟩
      · rw [if_neg hcond] at h; cases h
  · cases h

/-- A batch scan hit comes from an element of the batch, from the configured
chat, and through the regex. -/
lemma scanBatch_spec {chatId : String} :
    ∀ {b : List TgUpdate} {u : TgUpdate} {c : String},
      scanBatch chatId b = some (u, c) →
      u ∈ b ∧ u.chatId = chatId ∧ codeMatch (pyStrip u.text) = some c := by
  intro b
  induction b with
  | nil => intro u c h; simp [scanBatch] at h
  | cons v rest ih =>
    intro u c h
    unfold scanBatch at h
    by_cases hv : v.chatId == chatId
    · rw [if_pos hv] at h
      cases hm : codeMatch (pyStrip v.text) with
      | some c0 =>
        rw [hm] at h
        cases h
        exact ⟨List.mem_cons_self _ _, by simpa using hv, hm⟩
      | none =>
        rw [hm] at h
        obtain ⟨h1, h2, h3⟩ := ih h
        exact ⟨List.mem_cons_of_mem _ h1, h2, h3⟩
    · rw [if_neg hv] at h
      obtain ⟨h1, h2, h3⟩ := ih h
      exact ⟨List.mem_cons_of_mem _ h1, h2, h3⟩

/-- If no update of the batch is an authorized pattern match, the scan misses. -/
lemma scanBatch_none {chatId : String} :
    ∀ {b : List TgUpdate},
      (∀ u ∈ b, u.chatId = chatId → codeMatch (pyStrip u.text) = none) →
      scanBatch chatId b = none := by
  intro b
  induction b with
  | nil => intro _; rfl
  | cons v rest ih =>
    intro hall
    unfold scanBatch
    by_cases hv : v.chatId == chatId
    · rw [if_pos hv, hall v (List.mem_cons_self _ _) (by simpa using hv)]
      exact ih fun u hu => hall u (List.mem_cons_of_mem _ hu)
    · rw [if_neg hv]
      exact ih fun u hu => hall u (List.mem_cons_of_mem _ hu)

/-- The offset after a batch is the old one or one past a member's id. -/
lemma batchEnd_eq_or (b : List TgUpdate) :
    ∀ o : Nat, batchEnd o b = o ∨ ∃ u, u ∈ b ∧ batchEnd o b = u.update_id + 1 := by
  induction b with
  | nil => intro o; left; rfl
  | cons v rest ih =>
    intro o
    rcases ih (v.update_id + 1) with h | ⟨u, hu, he⟩
    · right; exact ⟨v, List.mem_cons_self _ _, by simpa [batchEnd] using h⟩
    · right; exact ⟨u, List.mem_cons_of_mem _ hu, by simpa [batchEnd] using he⟩

/-- Offsets never decrease across a batch whose updates respect the offset. -/
lemma le_batchEnd {b : List TgUpdate} {o : Nat}
    (hb : ∀ u ∈ b, o ≤ u.update_id) : o ≤ batchEnd o b := by
  rcases batchEnd_eq_or b o with h | ⟨u, hu, he⟩
  · exact h.ge
  · rw [he]; exact Nat.le_succ_of_le (hb u hu)

/-- Any hit of the polling loop respects the offset the loop started with,
provided the server honoured each requested offset. -/
lemma wait_code_loop_some {chatId : String} :
    ∀ {bs : List (List TgUpdate)} {o : Nat} {u : TgUpdate} {c : String},
      BatchesValid o bs → wait_code_loop chatId o bs = some (u, c) →
      o ≤ u.update_id := by
  intro bs
  induction bs with
  | nil => intro o u c _ h; simp [wait_code_loop] at h
  | cons b rest ih =>
    intro o u c hv h
    cases hv with
    | cons _ _ _ hb hrest =>
      unfold wait_code_loop at h
      cases hsb : scanBatch chatId b with
      | some r =>
        rw [hsb] at h
        cases h
        exact hb u (scanBatch_spec hsb).1
      | none =>
        rw [hsb] at h
        exact le_trans (le_batchEnd hb) (ih hrest h)

/-- Any hit of the polling loop is an authorized pattern match. -/
lemma wait_code_loop_spec {chatId : String} :
    ∀ {bs : List (List TgUpdate)} {o : Nat} {u : TgUpdate} {c : String},
      wait_code_loop chatId o bs = some (u, c) →
      u.chatId = chatId ∧ codeMatch (pyStrip u.text) = some c := by
  intro bs
  induction bs with
  | nil => intro o u c h; simp [wait_code_loop] at h
  | cons b rest ih =>
    intro o u c h
    unfold wait_code_loop at h
    cases hsb : scanBatch chatId b with
    | some r =>
      rw [hsb] at h
      cases h
      exact ⟨(scanBatch_spec hsb).2.1, (scanBatch_spec hsb).2.2⟩
    | none =>
      rw [hsb] at h
      exact ih h

/-- Without any authorized pattern match in any batch, the loop misses. -/
lemma wait_code_loop_none {chatId : String} :
    ∀ {bs : List (List TgUpdate)} {o : Nat},
      (∀ b ∈ bs, ∀ u ∈ b, u.chatId = chatId → codeMatch (pyStrip u.text) = none) →
      wait_code_loop chatId o bs = none := by
  intro bs
  induction bs with
  | nil => intro o _; rfl
  | cons b rest ih =>
    intro o hall
    unfold wait_code_loop
    rw [scanBatch_none (hall b (List.mem_cons_self _ _))]
    exact ih fun b0 hb0 => hall b0 (List.mem_cons_of_mem _ hb0)

/-- With strictly increasing update ids, every update already in the inbox is
strictly below the flushed offset. -/
lemma mem_lt_flush :
    ∀ {l : List TgUpdate},
      l.Pairwise (fun a b => a.update_id < b.update_id) →
      ∀ u ∈ l, u.update_id < flush_updates l := by
  intro l
  induction l with
  | nil => intro _ u hu; exact absurd hu (List.not_mem_nil u)
  | cons a t ih =>
    intro hp u hu
    cases t with
    | nil =>
      rcases List.mem_singleton.mp hu with rfl
      simp [flush_updates]
    | cons b t2 =>
      have hflush : flush_updates (a :: b :: t2) = flush_updates (b :: t2) := rfl
      rw [hflush]
      rcases List.mem_cons.mp hu with rfl | hu2
      · have hab : u.update_id < b.update_id :=
          (List.pairwise_cons.mp hp).1 b (List.mem_cons_self _ _)
        have hb : b.update_id < flush_updates (b :: t2) :=
          ih (List.pairwise_cons.mp hp).2 b (List.mem_cons_self _ _)
        exact lt_trans hab hb
      · exact ih (List.pairwise_cons.mp hp).2 u hu2

/-! ### Claim C1 -/

/-- C1 (code bug): in `_handle_mobile_2fa` the success check (line 426, URL no
longer contains `github.com/sessions/two-factor/`) precedes the login-page
check (line 432), and the base GitHub login URL does not contain the
two-factor marker.  So when the session expires mid-flow and the wait
observes `https://github.com/login`, the step reports success — the claim
(and the source's own comment on line 431) say this must be a hard failure. -/
theorem mobile2fa_login_fallback_reports_success :
    mobile2faLoop ["https://github.com/login"] = true := by
  rfl

/-! ### Claim C2 -/

/-- C2: every code returned by `wait_code` comes from an update whose
`update_id` is at least the offset flushed at call start, and an update that
was already in the inbox when the call started is never the source.
Hypotheses: the inbox lists update ids in strictly increasing order and the
server honours the requested offsets (both Telegram API guarantees). -/
theorem wait_code_no_stale_replay
    (ok : Bool) (chatId : String) (startInbox : List TgUpdate)
    (batches : List (List TgUpdate)) (u : TgUpdate) (c : String)
    (hsorted : startInbox.Pairwise (fun a b => a.update_id < b.update_id))
    (hvalid : BatchesValid (flush_updates startInbox) batches)
    (hret : wait_code_aux ok chatId startInbox batches = some (u, c)) :
    flush_updates startInbox ≤ u.update_id ∧ u ∉ startInbox ∧
      wait_code ok chatId startInbox batches = some c := by
  have hok : ok = true := by
    cases ok
    · simp [wait_code_aux] at hret
    · rfl
  subst hok
  have hloop : wait_code_loop chatId (flush_updates startInbox) batches = some (u, c) := by
    simpa [wait_code_aux] using hret
  have hle := wait_code_loop_some hvalid hloop
  refine ⟨hle, ?_, ?_⟩
  · intro hmem
    exact absurd hle (Nat.not_le.mpr (mem_lt_flush hsorted u hmem))
  · simp [wait_code, wait_code_aux, hloop]

/-- Concrete instance of C2: a stale `/code 111111` with id 5 sits in the
inbox at call start; the returned code is the fresh one, from id 6. -/
theorem wait_code_no_stale_replay_witness :
    flush_updates [⟨5, "1", "/code 111111"⟩] ≤ (⟨6, "1", "/code 123456"⟩ : TgUpdate).update_id ∧
    (⟨6, "1", "/code 123456"⟩ : TgUpdate) ∉ [(⟨5, "1", "/code 111111"⟩ : TgUpdate)] ∧
    wait_code true "1" [⟨5, "1", "/code 111111"⟩] [[⟨6, "1", "/code 123456"⟩]] =
      some "123456" :=
  wait_code_no_stale_replay true "1" [⟨5, "1", "/code 111111"⟩]
    [[⟨6, "1", "/code 123456"⟩]] ⟨6, "1", "/code 123456"⟩ "123456"
    (by simp) (BatchesValid.cons _ _ _ (by decide) (BatchesValid.nil _)) rfl

/-! ### Claim C3 -/

/-- C3: any value returned by `wait_code` is a 6-8 digit string coming from a
message whose chat identity equals the configured one and whose text matches
`/code <digits>`; messages from other identities are never the source, and
when no batch before the deadline contains an authorized match, `wait_code`
returns nothing. -/
theorem wait_code_sender_pattern_filter :
    (∀ (ok : Bool) (chatId : String) (startInbox : List TgUpdate)
        (batches : List (List TgUpdate)) (u : TgUpdate) (c : String),
      wait_code_aux ok chatId startInbox batches = some (u, c) →
      u.chatId = chatId ∧ codeMatch (pyStrip u.text) = some c ∧
        6 ≤ c.length ∧ c.length ≤ 8 ∧ c.data.all Char.isDigit = true) ∧
    (∀ (ok : Bool) (chatId : String) (startInbox : List TgUpdate)
        (batches : List (List TgUpdate)),
      (∀ b ∈ batches, ∀ u ∈ b, u.chatId = chatId → codeMatch (pyStrip u.text) = none) →
      wait_code ok chatId startInbox batches = none) := by
  constructor
  · intro ok chatId s bs u c hret
    have hok : ok = true := by
      cases ok
      · simp [wait_code_aux] at hret
      · rfl
    subst hok
    have hloop : wait_code_loop chatId (flush_updates s) bs = some (u, c) := by
      simpa [wait_code_aux] using hret
    obtain ⟨h1, h2⟩ := wait_code_loop_spec hloop
    obtain ⟨h3, h4, h5⟩ := codeMatch_spec h2
    exact ⟨h1, h2, h3, h4, h5⟩
  · intro ok chatId s bs hall
    cases ok
    · rfl
    · simp [wait_code, wait_code_aux, wait_code_loop_none hall]

/-- Concrete instance of C3: a match from the configured chat "1" satisfies
the pattern facts, and a batch whose only `/code` message is from chat "2"
yields nothing. -/
theorem wait_code_sender_pattern_filter_witness :
    ((⟨3, "1", "/code 654321"⟩ : TgUpdate).chatId = "1" ∧
      codeMatch (pyStrip (⟨3, "1", "/code 654321"⟩ : TgUpdate).text) = some "654321" ∧
      6 ≤ ("654321" : String).length ∧ ("654321" : String).length ≤ 8 ∧
      ("654321" : String).data.all Char.isDigit = true) ∧
    wait_code true "1" [] [[⟨3, "2", "/code 654321"⟩]] = none :=
  ⟨wait_code_sender_pattern_filter.1 true "1" [] [[⟨3, "1", "/code 654321"⟩]]
      ⟨3, "1", "/code 654321"⟩ "654321" rfl,
   wait_code_sender_pattern_filter.2 true "1" [] [[⟨3, "2", "/code 654321"⟩]] (by decide)⟩

/-! ### Claim C4 -/

/-- C4: `wait_device` reports success only at a moment when the URL it just
read carries no device-verification marker, and it reports failure only when,
after the whole wait window and the final best-effort click sweep, the URL
still carries a marker.  The returned string is the URL current at the return
point. -/
theorem wait_device_success_marker_gone (obs : List DevObs) (finalUrl : String) :
    ((wait_device obs finalUrl).1 = true → deviceMarker (wait_device obs finalUrl).2 = false) ∧
    ((wait_device obs finalUrl).1 = false →
      (wait_device obs finalUrl).2 = finalUrl ∧ deviceMarker finalUrl = true) := by
  induction obs with
  | nil =>
    by_cases hf : deviceMarker finalUrl = true
    · constructor
      · intro h
        simp [wait_device, hf] at h
      · intro _
        exact ⟨by simp [wait_device, hf], hf⟩
    · rw [Bool.not_eq_true] at hf
      constructor
      · intro _
        simp [wait_device, hf]
      · intro h
        simp [wait_device, hf] at h
  | cons o rest ih =>
    by_cases h1 : deviceMarker o.url = true
    · by_cases h2 : (o.clicked && !(deviceMarker o.urlAfterClick)) = true
      · constructor
        · intro _
          have : wait_device (o :: rest) finalUrl = (true, o.urlAfterClick) := by
            simp [wait_device, h1, h2]
          rw [this]
          have := (Bool.and_eq_true _ _).mp h2
          simpa using this.2
        · intro hfalse
          have : wait_device (o :: rest) finalUrl = (true, o.urlAfterClick) := by
            simp [wait_device, h1, h2]
          rw [this] at hfalse
          cases hfalse
      · have hstep : wait_device (o :: rest) finalUrl = wait_device rest finalUrl := by
          simp [wait_device, h1, h2]
        rw [hstep]
        exact ih
    · rw [Bool.not_eq_true] at h1
      have hstep : wait_device (o :: rest) finalUrl = (true, o.url) := by
        simp [wait_device, h1]
      constructor
      · intro _
        rw [hstep]
        exact h1
      · intro hfalse
        rw [hstep] at hfalse
        cases hfalse

/-- Concrete instance of C4: a wait that sees the verification page once and
then finds it gone succeeds at a marker-free URL, and a wait that never
leaves the page fails with the marker still present. -/
theorem wait_device_success_marker_gone_witness :
    (deviceMarker
      (wait_device [⟨"https://github.com/sessions/verified-device", false, ""⟩,
        ⟨"https://github.com/", false, ""⟩] "https://github.com/").2 = false) ∧
    ((wait_device [⟨"https://github.com/sessions/verified-device", false,
        "https://github.com/sessions/verified-device"⟩]
        "https://github.com/sessions/verified-device").2 =
          "https://github.com/sessions/verified-device" ∧
      deviceMarker "https://github.com/sessions/verified-device" = true) :=
  ⟨(wait_device_success_marker_gone _ _).1 (by decide),
   (wait_device_success_marker_gone _ _).2 (by decide)⟩

/-! ### Claim C5 -/

/-- The OAuth loop succeeds exactly when some in-budget iteration observes an
authenticated ClawCloud URL. -/
lemma oauthLoop_iff (urls : Nat → String) :
    ∀ (fuel a : Nat),
      oauthLoop urls a fuel = true ↔ ∃ j, j < fuel ∧ clawAuthed (urls (a + j)) = true := by
  intro fuel
  induction fuel with
  | zero => intro a; simp [oauthLoop]
  | succ f ih =>
    intro a
    unfold oauthLoop
    by_cases h : clawAuthed (urls a) = true
    · simp only [h, if_true, true_iff]
      exact ⟨0, Nat.succ_pos f, by simpa using h⟩
    · rw [if_neg h, ih (a + 1)]
      constructor
      · rintro ⟨j, hj, hc⟩
        refine ⟨j + 1, Nat.succ_lt_succ hj, ?_⟩
        have e : a + 1 + j = a + (j + 1) := by omega
        rwa [e] at hc
      · rintro ⟨j, hj, hc⟩
        cases j with
        | zero => simp at hc; exact absurd hc h
        | succ j2 =>
          refine ⟨j2, Nat.lt_of_succ_lt_succ hj, ?_⟩
          have e : a + (j2 + 1) = a + 1 + j2 := by omega
          rwa [e] at hc

/-- C5: the OAuth authorization loop runs at most 30 iterations (it is a
total function of the 30-entry URL trace): it succeeds exactly when some
iteration below the budget observes an authenticated ClawCloud URL, and when
a run that reaches the loop exhausts the budget without that, the run ends
with exit status 1 and the OAuth-failure notification. -/
theorem oauth_flow_budget_timeout :
    (∀ urls : Nat → String,
      complete_oauth_flow urls = true ↔ ∃ i, i < 30 ∧ clawAuthed (urls i) = true) ∧
    (∀ w : World,
      w.hasUser = true → w.hasPass = true →
      strContains (lowerStr w.landingUrl) "signin" = true →
      w.ghButtonFound = true → w.loginOk = true →
      (∀ i, i < 30 → clawAuthed (w.oauthUrls i) = false) →
      (run w).1 = 1 ∧ Ev.notifyFail "OAuth 流程失败" ∈ (run w).2) := by
  constructor
  · intro urls
    unfold complete_oauth_flow
    rw [oauthLoop_iff urls 30 0]
    simp
  · intro w hu hp hland hbtn hlogin hoauth
    have hflow : complete_oauth_flow w.oauthUrls = false := by
      by_contra hne
      have ht : complete_oauth_flow w.oauthUrls = true := by
        cases hc : complete_oauth_flow w.oauthUrls
        · exact absurd hc hne
        · rfl
      rw [complete_oauth_flow, oauthLoop_iff w.oauthUrls 30 0] at ht
      obtain ⟨j, hj, hc⟩ := ht
      rw [Nat.zero_add] at hc
      rw [hoauth j hj] at hc
      cases hc
    have hrun : run w =
        (1, preEvents w ++ [Ev.clickProvider] ++ loginEvents w ++
          [Ev.notifyFail "OAuth 流程失败"]) := by
      unfold run
      rw [hu, hp, hland, hbtn, hlogin, hflow]
      simp
    rw [hrun]
    exact ⟨rfl, by simp⟩

/-- Concrete instance of C5: a trace stuck on the GitHub authorize page makes
the loop time out, and such a run ends with exit status 1 and the OAuth
failure report. -/
theorem oauth_flow_budget_timeout_witness :
    (complete_oauth_flow (fun _ => "https://github.com/login/oauth/authorize") = true ↔
      ∃ i, i < 30 ∧ clawAuthed
        ((fun _ => "https://github.com/login/oauth/authorize") i) = true) ∧
    ((run ⟨true, true, "", "https://ap-northeast-1.run.claw.cloud/signin", true,
        "https://github.com/login", true,
        fun _ => "https://github.com/login/oauth/authorize",
        "", none, false⟩).1 = 1 ∧
      Ev.notifyFail "OAuth 流程失败" ∈
        (run ⟨true, true, "", "https://ap-northeast-1.run.claw.cloud/signin", true,
          "https://github.com/login", true,
          fun _ => "https://github.com/login/oauth/authorize",
          "", none, false⟩).2) :=
  ⟨oauth_flow_budget_timeout.1 (fun _ => "https://github.com/login/oauth/authorize"),
   oauth_flow_budget_timeout.2 _ rfl rfl rfl rfl rfl (fun _ _ => rfl)⟩

/-! ### Helper lemmas: run events -/

/-- The cookie preload contributes at most the `loadCookie` event. -/
lemma mem_preEvents {w : World} {e : Ev} (h : e ∈ preEvents w) : e = Ev.loadCookie := by
  unfold preEvents at h
  by_cases hs : w.ghSession = ""
  · rw [if_pos hs] at h
    cases h
  · rw [if_neg hs] at h
    simpa using h

/-- Lemma: `save_cookie` only talks to the secret store and the Notifier. -/
lemma mem_save_cookie {ok : Bool} {v : Option String} {e : Ev} (h : e ∈ save_cookie ok v) :
    (∃ s, e = Ev.secretUpdate s) ∨ (∃ s, e = Ev.sendRaw s) ∨ (∃ s, e = Ev.sendText s) := by
  match v with
  | none => cases h
  | some s =>
    unfold save_cookie at h
    dsimp only at h
    by_cases hs : s = ""
    · rw [if_pos hs] at h
      cases h
    · rw [if_neg hs] at h
      cases ok with
      | true =>
        rw [if_pos rfl] at h
        rcases List.mem_cons.mp h with h1 | h1
        · exact Or.inl ⟨s, h1⟩
        · exact Or.inr (Or.inr ⟨"GH_SESSION updated", by simpa using h1⟩)
      | false =>
        rw [if_neg (by simp)] at h
        rcases List.mem_cons.mp h with h1 | h1
        · exact Or.inl ⟨s, h1⟩
        · exact Or.inr (Or.inl ⟨s, by simpa using h1⟩)

/-- An invoked GitHub login contributes credential entry and 2FA handling. -/
lemma mem_loginEvents {w : World} {e : Ev} (h : e ∈ loginEvents w) :
    e = Ev.fillCredentials ∨ e = Ev.handle2fa := by
  unfold loginEvents at h
  by_cases hn : needLogin w = true
  · rw [if_pos hn] at h
    simpa using h
  · rw [if_neg hn] at h
    cases h

/-- The token-extraction step warns or saves, nothing else. -/
lemma mem_tokenEvents {w : World} {e : Ev} (h : e ∈ tokenEvents w) :
    e = Ev.warnNoCookie ∨ (∃ s, e = Ev.secretUpdate s) ∨ (∃ s, e = Ev.sendRaw s) ∨
      (∃ s, e = Ev.sendText s) := by
  unfold tokenEvents at h
  match hv : w.cookie with
  | none =>
    rw [hv] at h
    exact Or.inl (by simpa using h)
  | some s =>
    rw [hv] at h
    dsimp only at h
    by_cases hs : s = ""
    · rw [if_pos hs] at h
      exact Or.inl (by simpa using h)
    · rw [if_neg hs] at h
      exact Or.inr (mem_save_cookie h)

/-! ### Claim C6 -/

/-- C6: for a non-empty renewed token, a failing secret-store update is
compensated by delivering the raw value through the Notifier exactly once
(with the update invoked exactly once, no retry), while after a successful
update the raw value never reaches the Notifier and the update is again
invoked exactly once. -/
theorem save_cookie_update_failure_compensation (v : String) (hv : v ≠ "") :
    (save_cookie false (some v) = [Ev.secretUpdate v, Ev.sendRaw v] ∧
      (save_cookie false (some v)).countP (fun e => decide (e = Ev.sendRaw v)) = 1 ∧
      (save_cookie false (some v)).countP (fun e => decide (e = Ev.secretUpdate v)) = 1) ∧
    (save_cookie true (some v) = [Ev.secretUpdate v, Ev.sendText "GH_SESSION updated"] ∧
      (∀ x : String, Ev.sendRaw x ∉ save_cookie true (some v)) ∧
      (save_cookie true (some v)).countP (fun e => decide (e = Ev.secretUpdate v)) = 1) := by
  have h1 : save_cookie false (some v) = [Ev.secretUpdate v, Ev.sendRaw v] := by
    simp [save_cookie, hv]
  have h2 : save_cookie true (some v) = [Ev.secretUpdate v, Ev.sendText "GH_SESSION updated"] := by
    simp [save_cookie, hv]
  refine ⟨⟨h1, ?_, ?_⟩, h2, ?_, ?_⟩
  · rw [h1]
    simp [List.countP_cons, List.countP_nil]
  · rw [h1]
    simp [List.countP_cons, List.countP_nil]
  · intro x
    rw [h2]
    simp
  · rw [h2]
    simp [List.countP_cons, List.countP_nil]

/-- Concrete instance of C6 at the token "sessiontoken42". -/
theorem save_cookie_update_failure_compensation_witness :
    (save_cookie false (some "sessiontoken42") =
        [Ev.secretUpdate "sessiontoken42", Ev.sendRaw "sessiontoken42"] ∧
      (save_cookie false (some "sessiontoken42")).countP
        (fun e => decide (e = Ev.sendRaw "sessiontoken42")) = 1 ∧
      (save_cookie false (some "sessiontoken42")).countP
        (fun e => decide (e = Ev.secretUpdate "sessiontoken42")) = 1) ∧
    (save_cookie true (some "sessiontoken42") =
        [Ev.secretUpdate "sessiontoken42", Ev.sendText "GH_SESSION updated"] ∧
      (∀ x : String, Ev.sendRaw x ∉ save_cookie true (some "sessiontoken42")) ∧
      (save_cookie true (some "sessiontoken42")).countP
        (fun e => decide (e = Ev.secretUpdate "sessiontoken42")) = 1) :=
  save_cookie_update_failure_compensation "sessiontoken42" (by simp)

/-! ### Claim C7 -/

/-- C7: when the landing page is not the sign-in page, the run never clicks
the provider, never enters credentials, never handles 2FA; it proceeds to
keepalive, token extraction and a success report, ending with exit status 0. -/
theorem existing_session_skips_auth (w : World)
    (hu : w.hasUser = true) (hp : w.hasPass = true)
    (hland : strContains (lowerStr w.landingUrl) "signin" = false) :
    (run w).1 = 0 ∧
    run w = (0, preEvents w ++ [Ev.keepalive, Ev.extractToken] ++
        save_cookie w.updateOk w.cookie ++ [Ev.notifyOk]) ∧
    Ev.clickProvider ∉ (run w).2 ∧ Ev.fillCredentials ∉ (run w).2 ∧
    Ev.handle2fa ∉ (run w).2 ∧
    Ev.keepalive ∈ (run w).2 ∧ Ev.extractToken ∈ (run w).2 ∧ Ev.notifyOk ∈ (run w).2 := by
  have hrun : run w = (0, preEvents w ++ [Ev.keepalive, Ev.extractToken] ++
      save_cookie w.updateOk w.cookie ++ [Ev.notifyOk]) := by
    unfold run
    rw [hu, hp, hland]
    simp
  have hsplit : ∀ e : Ev, e ∈ (run w).2 →
      e = Ev.loadCookie ∨ e = Ev.keepalive ∨ e = Ev.extractToken ∨
      (∃ s, e = Ev.secretUpdate s) ∨ (∃ s, e = Ev.sendRaw s) ∨ (∃ s, e = Ev.sendText s) ∨
      e = Ev.notifyOk := by
    intro e he
    rw [hrun] at he
    simp only [List.mem_cons, List.not_mem_nil, List.mem_append,
      List.mem_singleton, or_false] at he
    rcases he with ((hpre | hk | hx) | hsave) | hok
    · exact Or.inl (mem_preEvents hpre)
    · tauto
    · tauto
    · rcases mem_save_cookie hsave with h | h | h <;> tauto
    · tauto
  refine ⟨by rw [hrun], hrun, ?_, ?_, ?_, ?_, ?_, ?_⟩
  · intro hmem
    rcases hsplit _ hmem with h | h | h | ⟨s, h⟩ | ⟨s, h⟩ | ⟨s, h⟩ | h <;> cases h
  · intro hmem
    rcases hsplit _ hmem with h | h | h | ⟨s, h⟩ | ⟨s, h⟩ | ⟨s, h⟩ | h <;> cases h
  · intro hmem
    rcases hsplit _ hmem with h | h | h | ⟨s, h⟩ | ⟨s, h⟩ | ⟨s, h⟩ | h <;> cases h
  · rw [hrun]
    simp
  · rw [hrun]
    simp
  · rw [hrun]
    simp

/-- Concrete instance of C7: landing already authenticated, a fresh cookie
present and the secret update succeeding. -/
theorem existing_session_skips_auth_witness :
    (run ⟨true, true, "oldsession", "https://ap-northeast-1.run.claw.cloud/", true,
        "", true, fun _ => "", "", some "newsession", true⟩).1 = 0 ∧
    run ⟨true, true, "oldsession", "https://ap-northeast-1.run.claw.cloud/", true,
        "", true, fun _ => "", "", some "newsession", true⟩ =
      (0, preEvents ⟨true, true, "oldsession", "https://ap-northeast-1.run.claw.cloud/", true,
          "", true, fun _ => "", "", some "newsession", true⟩ ++
        [Ev.keepalive, Ev.extractToken] ++
        save_cookie true (some "newsession") ++ [Ev.notifyOk]) ∧
    Ev.clickProvider ∉ (run ⟨true, true, "oldsession",
        "https://ap-northeast-1.run.claw.cloud/", true,
        "", true, fun _ => "", "", some "newsession", true⟩).2 ∧
    Ev.fillCredentials ∉ (run ⟨true, true, "oldsession",
        "https://ap-northeast-1.run.claw.cloud/", true,
        "", true, fun _ => "", "", some "newsession", true⟩).2 ∧
    Ev.handle2fa ∉ (run ⟨true, true, "oldsession",
        "https://ap-northeast-1.run.claw.cloud/", true,
        "", true, fun _ => "", "", some "newsession", true⟩).2 ∧
    Ev.keepalive ∈ (run ⟨true, true, "oldsession",
        "https://ap-northeast-1.run.claw.cloud/", true,
        "", true, fun _ => "", "", some "newsession", true⟩).2 ∧
    Ev.extractToken ∈ (run ⟨true, true, "oldsession",
        "https://ap-northeast-1.run.claw.cloud/", true,
        "", true, fun _ => "", "", some "newsession", true⟩).2 ∧
    Ev.notifyOk ∈ (run ⟨true, true, "oldsession",
        "https://ap-northeast-1.run.claw.cloud/", true,
        "", true, fun _ => "", "", some "newsession", true⟩).2 :=
  existing_session_skips_auth _ rfl rfl rfl

/-! ### Claim C8 -/

/-- C8: with no two-factor marker in the post-login URL, the 2FA step returns
success with no operator interaction at all (no Telegram prompt, no blocking
code wait). -/
theorem detect_2fa_no_marker_skips (w : TwoFaWorld) (url : String)
    (h : strContains url "two-factor" = false) :
    detect_and_handle_2fa w url = (true, []) := by
  unfold detect_and_handle_2fa
  rw [h]
  simp

/-- Concrete instance of C8 at the GitHub home URL. -/
theorem detect_2fa_no_marker_skips_witness :
    detect_and_handle_2fa ⟨[], true, "1", [], [], false, ""⟩ "https://github.com/" =
      (true, []) :=
  detect_2fa_no_marker_skips ⟨[], true, "1", [], [], false, ""⟩ "https://github.com/" rfl

/-! ### Claim C9 -/

/-- C9: a fresh login whose OAuth flow and verification succeed but whose
browser context yields no renewed session cookie still ends with exit status
0 and a success report; the missing cookie only produces the warning event,
never a failure notification. -/
theorem missing_cookie_soft_success (w : World)
    (hu : w.hasUser = true) (hp : w.hasPass = true)
    (hland : strContains (lowerStr w.landingUrl) "signin" = true)
    (hbtn : w.ghButtonFound = true) (hlogin : w.loginOk = true)
    (hoauth : complete_oauth_flow w.oauthUrls = true)
    (hver : clawAuthed w.finalUrl = true)
    (hcookie : w.cookie = none) :
    (run w).1 = 0 ∧ Ev.warnNoCookie ∈ (run w).2 ∧ Ev.notifyOk ∈ (run w).2 ∧
    ∀ m, Ev.notifyFail m ∉ (run w).2 := by
  have htok : tokenEvents w = [Ev.warnNoCookie] := by
    unfold tokenEvents
    rw [hcookie]
  have hrun : run w = (0, preEvents w ++ [Ev.clickProvider] ++ loginEvents w ++
      [Ev.keepalive, Ev.extractToken] ++ tokenEvents w ++ [Ev.notifyOk]) := by
    unfold run
    rw [hu, hp, hland, hbtn, hlogin, hoauth, hver]
    simp
  refine ⟨by rw [hrun], ?_, ?_, ?_⟩
  · rw [hrun, htok]
    simp
  · rw [hrun]
    simp
  · intro m hmem
    rw [hrun, htok] at hmem
    simp only [List.mem_cons, List.not_mem_nil, List.mem_append,
      List.mem_singleton, or_false] at hmem
    rcases hmem with ((((hpre | hc) | hl) | hk | hx) | hwarn) | hok
    · cases mem_preEvents hpre
    · cases hc
    · rcases mem_loginEvents hl with h | h <;> cases h
    · cases hk
    · cases hx
    · cases hwarn
    · cases hok

/-- Concrete instance of C9: login and OAuth succeed, no cookie is found. -/
theorem missing_cookie_soft_success_witness :
    (run ⟨true, true, "", "https://ap-northeast-1.run.claw.cloud/signin", true,
        "https://github.com/login", true, fun _ => "https://ap-northeast-1.run.claw.cloud/",
        "https://ap-northeast-1.run.claw.cloud/", none, false⟩).1 = 0 ∧
    Ev.warnNoCookie ∈ (run ⟨true, true, "", "https://ap-northeast-1.run.claw.cloud/signin",
        true, "https://github.com/login", true,
        fun _ => "https://ap-northeast-1.run.claw.cloud/",
        "https://ap-northeast-1.run.claw.cloud/", none, false⟩).2 ∧
    Ev.notifyOk ∈ (run ⟨true, true, "", "https://ap-northeast-1.run.claw.cloud/signin",
        true, "https://github.com/login", true,
        fun _ => "https://ap-northeast-1.run.claw.cloud/",
        "https://ap-northeast-1.run.claw.cloud/", none, false⟩).2 ∧
    ∀ m, Ev.notifyFail m ∉ (run ⟨true, true, "",
        "https://ap-northeast-1.run.claw.cloud/signin", true,
        "https://github.com/login", true,
        fun _ => "https://ap-northeast-1.run.claw.cloud/",
        "https://ap-northeast-1.run.claw.cloud/", none, false⟩).2 :=
  missing_cookie_soft_success _ rfl rfl rfl rfl rfl rfl rfl rfl

/-! ### Claim C10 -/

/-- C10: `save_cookie` with a missing or empty token is a no-op: no secret
store update, no Telegram message, no event at all. -/
theorem save_cookie_empty_noop (ok : Bool) :
    save_cookie ok none = [] ∧ save_cookie ok (some "") = [] := by
  constructor
  · rfl
  · simp [save_cookie]

end ClawCloud
